import Mathlib

/-!
# Verification of the `repersist` store builder

A shallow embedding of `src/index.js` (and its compiled twin `lib/index.js`):
a factory that builds a React store which hydrates its initial state from a
key-value storage backend and mirrors every committed state change back to it.

The embedding models:
* JavaScript values (`JSVal`) with their truthiness,
* the configuration object accepted by the default export,
* the hydration sequence of `Provider.constructor`,
* the startup write-back (`storage && storage.setItem(storageKey, serialize(this.state))`),
* `setStateAndSave` and the action wrapper
  (`async (...args) => { const newState = await action(...args);
    if (typeof newState !== 'undefined') this.setStateAndSave(newState) }`),
* the list of names returned by the factory.

Fallible JavaScript calls (`deserialize`, `integrity`, `load`, the action
bodies) are embedded as `Except Unit _`; an `error` value is a thrown
exception. Storage traffic is recorded as an explicit list of operations so
that "no read/write occurs" claims are statable.
-/

/-- A JavaScript value, first-order fragment: `undefined`, `null`, booleans,
integers, strings and string-keyed objects (association lists). -/
inductive JSVal where
  | undef : JSVal
  | null : JSVal
  | bool : Bool → JSVal
  | num : Int → JSVal
  | str : String → JSVal
  | obj : List (String × JSVal) → JSVal
deriving Repr

/-- JavaScript truthiness: `undefined`, `null`, `false`, `0` and `""` are
falsy, everything else (objects included) is truthy. -/
def JSVal.truthy : JSVal → Bool
  | .undef => false
  | .null => false
  | .bool b => b
  | .num n => n != 0
  | .str s => s != ""
  | .obj _ => true

/-- First-match lookup of a key in an object's field list. -/
def objGet (fields : List (String × JSVal)) (k : String) : Option JSVal :=
  match fields with
  | [] => none
  | (k2, v) :: rest => if k2 = k then some v else objGet rest k

/-- `Object.assign({}, s, p)`: fields of `p` override fields of `s`. -/
def objAssign (s p : List (String × JSVal)) : List (String × JSVal) :=
  p ++ s.filter (fun kv => (objGet p kv.1).isNone)

/-- React's `setState` merge of a partial state into the current state:
an object patch is shallow-merged over the state (`Object.assign`-style);
`null` and `undefined` patches leave the state untouched, as do primitive
patches (they contribute no own enumerable properties). -/
def mergePatch (state patch : JSVal) : JSVal :=
  match patch with
  | .obj pf =>
    match state with
    | .obj sf => .obj (objAssign sf pf)
    | _ => .obj (objAssign [] pf)
  | _ => state

/-- One call made against the storage backend. -/
inductive StorageOp where
  | getItem : String → StorageOp
  | setItem : String → String → StorageOp
deriving Repr, DecidableEq

/-- The configuration accepted by the default export, after the
`isFunction` normalization of `init` (`const init = isFunction(init_) ?
init_ : () => init_`). `hasStorage = false` is `storage = null`; when the
backend is present its contents under `storageKey` are carried separately,
since the store touches no other key. -/
structure Config where
  init : JSVal → JSVal
  hasStorage : Bool
  storageKey : String
  serialize : JSVal → String
  deserialize : String → Except Unit JSVal
  integrity : JSVal → Except Unit JSVal
  load : JSVal → Except Unit JSVal

/-- The default `init` option is `() => {}` — an arrow function whose body
is an empty *block*, so it returns `undefined` (not an empty object). -/
def defaultInit : JSVal → JSVal := fun _ => JSVal.undef

/-- The default `integrity` option, `() => true`. -/
def defaultIntegrity : JSVal → Except Unit JSVal := fun _ => .ok (.bool true)

/-- The default `load` option, lodash's `identity`. -/
def defaultLoad : JSVal → Except Unit JSVal := fun v => .ok v

/-- The `try`/`catch` block of `Provider.constructor`: fetch the raw record
(`storage && storage.getItem(storageKey)`, falsy when the backend is absent,
the key unset, or the record the empty string), deserialize it, test
integrity (a throw or a falsy result falls back), and pass it through
`load`; any `throw` on the way lands in `catch` and yields `init(props)`.
The result of `load` is assigned to `this.state` unchecked. -/
def hydrateState (cfg : Config) (props : JSVal) (stored : Option String) : JSVal :=
  if cfg.hasStorage then
    match stored with
    | none => cfg.init props
    | some s =>
      if s = "" then cfg.init props
      else
        match cfg.deserialize s with
        | .error _ => cfg.init props
        | .ok v =>
          match cfg.integrity v with
          | .error _ => cfg.init props
          | .ok iv =>
            if iv.truthy then
              match cfg.load v with
              | .error _ => cfg.init props
              | .ok lv => lv
            else cfg.init props
  else cfg.init props

/-- The store's mutable pair: `this.state` and the record held by the
backend under `storageKey` (`none` when nothing is stored). -/
structure StoreSt where
  state : JSVal
  stored : Option String
deriving Repr

/-- Outcome of running `Provider.constructor`: the store state afterwards
and the storage calls it made, in order. -/
structure BuildOut where
  store : StoreSt
  ops : List StorageOp
deriving Repr

/-- `Provider.constructor`: hydrate `this.state`, then
`storage && storage.setItem(storageKey, serialize(this.state))` writes the
initial state back whenever the backend is present. -/
def construct (cfg : Config) (props : JSVal) (stored : Option String) : BuildOut :=
  let getOps : List StorageOp :=
    if cfg.hasStorage then [.getItem cfg.storageKey] else []
  let st := hydrateState cfg props stored
  if cfg.hasStorage then
    { store := { state := st, stored := some (cfg.serialize st) }
      ops := getOps ++ [.setItem cfg.storageKey (cfg.serialize st)] }
  else
    { store := { state := st, stored := stored }, ops := getOps }

/-- What an awaited action call produced: a plain value (possibly
`undefined`) or a state-updater function, which `setState` calls on the
current state before merging. -/
inductive ActionRes where
  | val : JSVal → ActionRes
  | updater : (JSVal → JSVal) → ActionRes

/-- `setStateAndSave`: `this.setState(state, () => { storage &&
storage.setItem(storageKey, serialize(this.state)) })` — merge the partial
state (calling it first when it is an updater function), then write the
serialized new state whenever the backend is present. -/
def setStateAndSave (cfg : Config) (s : StoreSt) (res : ActionRes) :
    StoreSt × List StorageOp :=
  let patch := match res with
    | .val v => v
    | .updater f => f s.state
  let st := mergePatch s.state patch
  if cfg.hasStorage then
    ({ state := st, stored := some (cfg.serialize st) },
     [.setItem cfg.storageKey (cfg.serialize st)])
  else
    ({ state := st, stored := s.stored }, [])

/-- Outcome of calling a wrapped action: the store afterwards, whether the
exception propagated to the caller, and the storage calls made. -/
structure InvokeOut where
  store : StoreSt
  threw : Bool
  ops : List StorageOp

/-- The action wrapper: `const newState = await action(...args);
if (typeof newState !== 'undefined') this.setStateAndSave(newState)`.
`run` is the awaited result of the underlying action on the caller's
arguments; a throw or rejection (`error`) is not caught, so it propagates
and the store is left untouched. A strictly `undefined` result skips the
commit; any other result is handed to `setStateAndSave`. -/
def invokeWrapped (cfg : Config) (s : StoreSt) (run : Except Unit ActionRes) :
    InvokeOut :=
  match run with
  | .error _ => { store := s, threw := true, ops := [] }
  | .ok res =>
    match res with
    | .val .undef => { store := s, threw := false, ops := [] }
    | _ =>
      let (s2, ops) := setStateAndSave cfg s res
      { store := s2, threw := false, ops := ops }

/-- The names returned by the factory (`return { Provider, Consumer,
ActionsConsumer, withStore, withActions, useStore, useActions }`). -/
def exposedSurface : List String :=
  ["Provider", "Consumer", "ActionsConsumer", "withStore", "withActions",
   "useStore", "useActions"]

/-! ## Helper lemmas about shallow merge -/

theorem objGet_assign_same (s : List (String × JSVal)) (k : String) (v : JSVal) :
    objGet (objAssign s [(k, v)]) k = some v := by
  simp [objAssign, objGet]

theorem objGet_filter_keepKey (p : String × JSVal → Bool)
    (s : List (String × JSVal)) (k2 : String)
    (hp : ∀ w, p (k2, w) = true) :
    objGet (s.filter p) k2 = objGet s k2 := by
  induction s with
  | nil => rfl
  | cons hd tl ih =>
    by_cases hk2 : hd.1 = k2
    · have hphd : p hd = true := by
        have hpair : hd = (k2, hd.2) := by
          cases hd
          simp only at hk2
          simp [hk2]
        rw [hpair]
        exact hp hd.2
      simp [List.filter_cons, hphd, objGet, hk2]
    · by_cases hph : p hd = true
      · simp [List.filter_cons, hph, objGet, hk2, ih]
      · simp only [Bool.not_eq_true] at hph
        simp [List.filter_cons, hph, objGet, hk2, ih]

theorem objGet_assign_other (s : List (String × JSVal)) (k k2 : String)
    (v : JSVal) (h : k2 ≠ k) :
    objGet (objAssign s [(k, v)]) k2 = objGet s k2 := by
  have h2 : ¬ (k = k2) := fun hkk => h hkk.symm
  have step := objGet_filter_keepKey (fun kv => (objGet [(k, v)] kv.1).isNone) s k2
    (by intro w; simp [objGet, h2])
  calc objGet (objAssign s [(k, v)]) k2
      = if k = k2 then some v
        else objGet (s.filter fun kv => (objGet [(k, v)] kv.1).isNone) k2 := rfl
    _ = objGet (s.filter fun kv => (objGet [(k, v)] kv.1).isNone) k2 := by
        rw [if_neg h2]
    _ = objGet s k2 := step

/-! ## The persistence invariant (claim C2) -/

/-- The backend holds, under the configured key, exactly the serialization
of the current in-memory state. -/
def persistInv (cfg : Config) (s : StoreSt) : Prop :=
  s.stored = some (cfg.serialize s.state)

/-- C2. Persistence invariant: with a non-null storage backend, the record
held by the backend equals the configured serializer applied to the current
in-memory state, right after construction and after every wrapped-action
invocation (whatever the action did). -/
theorem persistence_invariant (cfg : Config) (props : JSVal)
    (stored0 : Option String) (h : cfg.hasStorage = true) :
    persistInv cfg (construct cfg props stored0).store ∧
    ∀ (s : StoreSt) (run : Except Unit ActionRes),
      persistInv cfg s → persistInv cfg (invokeWrapped cfg s run).store := by
  constructor
  · simp [construct, persistInv, h]
  · intro s run hs
    cases run with
    | error e => simpa [invokeWrapped, persistInv] using hs
    | ok res =>
      cases res with
      | val v =>
        cases v <;> simp [invokeWrapped, setStateAndSave, persistInv, h]
        exact hs
      | updater f =>
        simp [invokeWrapped, setStateAndSave, persistInv, h]

/-- A concrete configuration used to instantiate the hypothesised
theorems: storage present, default hooks, a serializer that recognizes the
states appearing in the scenarios. -/
def serializeW : JSVal → String
  | .obj [] => "e"
  | .obj [("counter", .num 0)] => "c0"
  | .obj [("counter", .num 3), ("x", .num 5)] => "m"
  | _ => "other"

def deserializeW : String → Except Unit JSVal
  | "e" => .ok (.obj [])
  | "c0" => .ok (.obj [("counter", .num 0)])
  | "m" => .ok (.obj [("counter", .num 3), ("x", .num 5)])
  | _ => .error ()

def cfgW : Config where
  init := fun _ => .obj []
  hasStorage := true
  storageKey := "repersist-store"
  serialize := serializeW
  deserialize := deserializeW
  integrity := defaultIntegrity
  load := defaultLoad

theorem persistence_invariant_witness :
    persistInv cfgW (construct cfgW JSVal.undef none).store :=
  (persistence_invariant cfgW JSVal.undef none rfl).1

/-! ## Action-error atomicity (claim C4) -/

/-- C4. A throwing or rejecting action is not caught by the wrapper: the
exception propagates to the caller, no storage call is made, and the store
state and stored record are exactly as before the invocation. -/
theorem action_error_atomicity (cfg : Config) (s : StoreSt) :
    (invokeWrapped cfg s (.error ())).store = s ∧
    (invokeWrapped cfg s (.error ())).threw = true ∧
    (invokeWrapped cfg s (.error ())).ops = [] := by
  exact ⟨rfl, rfl, rfl⟩

/-! ## Storage-null purity (claim C6) -/

/-- C6. With `storage = null` no `getItem` or `setItem` call is ever made:
construction performs no storage operation and hydration falls back to the
default state, and no wrapped-action invocation performs a storage
operation; the stored record is never touched. -/
theorem storage_null_purity (cfg : Config) (props : JSVal)
    (stored0 : Option String) (h : cfg.hasStorage = false) :
    (construct cfg props stored0).ops = [] ∧
    (construct cfg props stored0).store.state = cfg.init props ∧
    (construct cfg props stored0).store.stored = stored0 ∧
    ∀ (s : StoreSt) (run : Except Unit ActionRes),
      (invokeWrapped cfg s run).ops = [] ∧
      (invokeWrapped cfg s run).store.stored = s.stored := by
  refine ⟨by simp [construct, hydrateState, h], by simp [construct, hydrateState, h],
    by simp [construct, h], ?_⟩
  intro s run
  cases run with
  | error e => exact ⟨rfl, rfl⟩
  | ok res =>
    cases res with
    | val v => cases v <;> simp [invokeWrapped, setStateAndSave, h]
    | updater f => simp [invokeWrapped, setStateAndSave, h]

def cfgNoStorage : Config where
  init := fun _ => .obj [("a", .num 1)]
  hasStorage := false
  storageKey := "repersist-store"
  serialize := serializeW
  deserialize := deserializeW
  integrity := defaultIntegrity
  load := defaultLoad

theorem storage_null_purity_witness :
    (construct cfgNoStorage JSVal.undef none).ops = [] ∧
    (construct cfgNoStorage JSVal.undef none).store.state =
      cfgNoStorage.init JSVal.undef ∧
    (construct cfgNoStorage JSVal.undef none).store.stored = none ∧
    ∀ (s : StoreSt) (run : Except Unit ActionRes),
      (invokeWrapped cfgNoStorage s run).ops = [] ∧
      (invokeWrapped cfgNoStorage s run).store.stored = s.stored :=
  storage_null_purity cfgNoStorage JSVal.undef none rfl

/-! ## Strict-undefined no-op boundary (claim C10) -/

/-- C10. The commit-and-persist step is skipped iff the awaited action
result is strictly `undefined` (state, stored record and storage traffic
untouched); any other result — `null` and other falsy values included — is
handed to `setStateAndSave`, and with a storage backend present that
triggers exactly one persistence write of the serialized new state. -/
theorem strict_undefined_noop (cfg : Config) (s : StoreSt) :
    invokeWrapped cfg s (.ok (.val .undef)) =
      { store := s, threw := false, ops := [] } ∧
    (∀ res : ActionRes, res ≠ .val .undef →
      invokeWrapped cfg s (.ok res) =
        { store := (setStateAndSave cfg s res).1, threw := false,
          ops := (setStateAndSave cfg s res).2 }) ∧
    (cfg.hasStorage = true → ∀ res : ActionRes, res ≠ .val .undef →
      (invokeWrapped cfg s (.ok res)).ops =
        [.setItem cfg.storageKey
          (cfg.serialize (setStateAndSave cfg s res).1.state)]) := by
  refine ⟨rfl, ?_, ?_⟩
  · intro res hres
    cases res with
    | val v => cases v <;> first | exact absurd rfl hres | rfl
    | updater f => rfl
  · intro h res hres
    cases res with
    | val v =>
      cases v <;> first
        | exact absurd rfl hres
        | simp [invokeWrapped, setStateAndSave, h]
    | updater f => simp [invokeWrapped, setStateAndSave, h]

theorem strict_undefined_noop_witness :
    invokeWrapped cfgW ⟨.obj [], some "e"⟩ (.ok (.val .undef)) =
      { store := ⟨.obj [], some "e"⟩, threw := false, ops := [] } ∧
    (invokeWrapped cfgW ⟨.obj [], some "e"⟩ (.ok (.val .null))).ops =
      [.setItem cfgW.storageKey (cfgW.serialize
        (setStateAndSave cfgW ⟨.obj [], some "e"⟩ (.val .null)).1.state)] :=
  ⟨(strict_undefined_noop cfgW ⟨.obj [], some "e"⟩).1,
   (strict_undefined_noop cfgW ⟨.obj [], some "e"⟩).2.2 rfl (.val .null)
     (by simp)⟩

/-! ## Hydration fallback and the unchecked `load` result (claim C1) -/

/-- A configuration whose `load` hook returns a falsy value (`null`)
without throwing, on an otherwise valid stored record. -/
def cfgLoadFalsy : Config where
  init := fun _ => .obj [("a", .num 1)]
  hasStorage := true
  storageKey := "repersist-store"
  serialize := serializeW
  deserialize := fun s => if s = "r" then .ok (.obj []) else .error ()
  integrity := defaultIntegrity
  load := fun _ => .ok .null

/-- C1 (failing input). `this.state = load(stored)` is the last statement
of the `try` block and its result is never tested for falsiness: with a
valid stored record and `load = () => null`, the initial state is `null`
— a falsy non-default value — not the default state, contradicting the
documented "load returns falsy ⇒ default state" fallback. -/
theorem hydration_load_falsy_divergence :
    (construct cfgLoadFalsy (.obj []) (some "r")).store.state = JSVal.null ∧
    JSVal.null.truthy = false ∧
    cfgLoadFalsy.init (.obj []) = .obj [("a", .num 1)] ∧
    (construct cfgLoadFalsy (.obj []) (some "r")).store.state ≠
      cfgLoadFalsy.init (.obj []) := by
  refine ⟨rfl, rfl, rfl, ?_⟩
  intro hc
  exact JSVal.noConfusion hc

/-! ## Startup write-back normalization (claim C5) -/

/-- C5. With a non-null storage backend, construction always ends with a
`setItem` of the serialized initial state under the configured key — the
backend then holds exactly that string — and on the path where the primed
record fails deserialization the initial state is the default and the
record is overwritten with the serialized default. -/
theorem startup_writeback (cfg : Config) (props : JSVal)
    (stored0 : Option String) (h : cfg.hasStorage = true) :
    ((construct cfg props stored0).store.stored =
        some (cfg.serialize (construct cfg props stored0).store.state) ∧
      (construct cfg props stored0).ops =
        [.getItem cfg.storageKey,
         .setItem cfg.storageKey
           (cfg.serialize (construct cfg props stored0).store.state)]) ∧
    (∀ s, stored0 = some s → s ≠ "" → cfg.deserialize s = .error () →
      (construct cfg props stored0).store.state = cfg.init props ∧
      (construct cfg props stored0).store.stored =
        some (cfg.serialize (cfg.init props))) := by
  constructor
  · constructor
    · simp [construct, h]
    · simp [construct, h]
  · intro s hs hne hde
    subst hs
    constructor
    · simp [construct, hydrateState, h, hne, hde]
    · simp [construct, hydrateState, h, hne, hde]

/-- A configuration with storage present and a deserializer that rejects
the primed record `"bad"`. -/
def cfgBadRecord : Config where
  init := fun _ => .obj [("a", .num 1)]
  hasStorage := true
  storageKey := "repersist-store"
  serialize := serializeW
  deserialize := fun s => if s = "r" then .ok (.obj []) else .error ()
  integrity := defaultIntegrity
  load := defaultLoad

theorem startup_writeback_witness :
    (construct cfgBadRecord (.obj []) (some "bad")).store.state =
      cfgBadRecord.init (.obj []) ∧
    (construct cfgBadRecord (.obj []) (some "bad")).store.stored =
      some (cfgBadRecord.serialize (cfgBadRecord.init (.obj []))) :=
  (startup_writeback cfgBadRecord (.obj []) (some "bad") rfl).2 "bad" rfl
    (by decide) rfl

/-! ## Merge-then-persist round trip (claim C3) -/

/-- C3. For any prior object state and an action result `{k: v}`, invoking
the wrapped action shallow-merges `{k: v}` over the prior state: the new
in-memory state is the merge, the persisted record deserializes back to
that merge (given that the configured codec round-trips on it), the merged
state holds `v` at `k`, and every other key reads exactly as before. -/
theorem merge_then_persist (cfg : Config) (fields : List (String × JSVal))
    (k : String) (v : JSVal) (stored0 : Option String)
    (h : cfg.hasStorage = true)
    (hrt : cfg.deserialize (cfg.serialize (.obj (objAssign fields [(k, v)]))) =
      .ok (.obj (objAssign fields [(k, v)]))) :
    (invokeWrapped cfg ⟨.obj fields, stored0⟩
        (.ok (.val (.obj [(k, v)])))).store.state =
      .obj (objAssign fields [(k, v)]) ∧
    (∃ str, (invokeWrapped cfg ⟨.obj fields, stored0⟩
          (.ok (.val (.obj [(k, v)])))).store.stored = some str ∧
        cfg.deserialize str = .ok (.obj (objAssign fields [(k, v)]))) ∧
    objGet (objAssign fields [(k, v)]) k = some v ∧
    (∀ k2, k2 ≠ k → objGet (objAssign fields [(k, v)]) k2 = objGet fields k2) := by
  refine ⟨?_, ?_, objGet_assign_same fields k v,
    fun k2 hk2 => objGet_assign_other fields k k2 v hk2⟩
  · simp [invokeWrapped, setStateAndSave, mergePatch, h]
  · refine ⟨cfg.serialize (.obj (objAssign fields [(k, v)])), ?_, hrt⟩
    simp [invokeWrapped, setStateAndSave, mergePatch, h]

theorem merge_then_persist_witness :
    (invokeWrapped cfgW ⟨.obj [("x", .num 5)], some "c0"⟩
        (.ok (.val (.obj [("counter", .num 3)])))).store.state =
      .obj (objAssign [("x", .num 5)] [("counter", .num 3)]) :=
  (merge_then_persist cfgW [("x", .num 5)] "counter" (.num 3) (some "c0")
    rfl rfl).1

/-! ## Hydration idempotence (claim C7) -/

/-- A configuration whose hooks are individually legal but jointly not
idempotent: the codec round-trips numbers, while `load` shifts every
number it sees by one. -/
def cfgLoadShift : Config where
  init := fun _ => .obj []
  hasStorage := true
  storageKey := "repersist-store"
  serialize := fun v => match v with
    | .num 0 => "a"
    | .num 1 => "b"
    | .num 2 => "c"
    | _ => "z"
  deserialize := fun s =>
    if s = "a" then .ok (.num 0)
    else if s = "b" then .ok (.num 1)
    else if s = "c" then .ok (.num 2)
    else .error ()
  integrity := defaultIntegrity
  load := fun v => match v with
    | .num n => .ok (.num (n + 1))
    | _ => .error ()

/-- C7 (counterexample). Hydration is not idempotent for every valid
configuration: with a primed record `"a"` and a `load` hook that increments
the number it is given, the first construction yields state `1` (writing
back `"b"`), and a second construction over the storage the first left
behind yields state `2` — the two initial states differ. -/
theorem hydration_idempotence_counterexample :
    (construct cfgLoadShift (.obj []) (some "a")).store.state = .num 1 ∧
    (construct cfgLoadShift (.obj [])
        ((construct cfgLoadShift (.obj []) (some "a")).store.stored)).store.state =
      .num 2 ∧
    JSVal.num 1 ≠ JSVal.num 2 := by
  refine ⟨rfl, rfl, ?_⟩
  intro hc
  simp at hc

theorem hydrateState_good (cfg : Config) (props : JSVal) (str : String)
    (v iv lv : JSVal) (h : cfg.hasStorage = true) (hne : ¬ str = "")
    (hde : cfg.deserialize str = .ok v) (hint : cfg.integrity v = .ok iv)
    (htr : iv.truthy = true) (hld : cfg.load v = .ok lv) :
    hydrateState cfg props (some str) = lv := by
  simp [hydrateState, h, hne, hde, hint, htr, hld]

/-- C7 (amended). Constructing a second store over the storage left by a
first construction yields the same initial state, provided the configured
hooks are coherent at the first initial state: its serialization is a
nonempty string that deserializes back to it, the integrity check accepts
it, and the load transform fixes it — all true of the default hooks. -/
theorem hydration_idempotence_amended (cfg : Config) (props : JSVal)
    (stored0 : Option String) (iv : JSVal) (h : cfg.hasStorage = true)
    (hne : cfg.serialize (hydrateState cfg props stored0) ≠ "")
    (hrt : cfg.deserialize (cfg.serialize (hydrateState cfg props stored0)) =
      .ok (hydrateState cfg props stored0))
    (hint : cfg.integrity (hydrateState cfg props stored0) = .ok iv)
    (htr : iv.truthy = true)
    (hld : cfg.load (hydrateState cfg props stored0) =
      .ok (hydrateState cfg props stored0)) :
    (construct cfg props ((construct cfg props stored0).store.stored)).store.state =
      (construct cfg props stored0).store.state := by
  have hstored : (construct cfg props stored0).store.stored =
      some (cfg.serialize (hydrateState cfg props stored0)) := by
    simp [construct, h]
  have hstate : (construct cfg props stored0).store.state =
      hydrateState cfg props stored0 := by
    simp [construct, h]
  rw [hstored, hstate]
  have h2 : (construct cfg props
        (some (cfg.serialize (hydrateState cfg props stored0)))).store.state =
      hydrateState cfg props
        (some (cfg.serialize (hydrateState cfg props stored0))) := by
    simp [construct, h]
  rw [h2]
  exact hydrateState_good cfg props _ _ iv _ h hne hrt hint htr hld

theorem hydration_idempotence_witness :
    (construct cfgW (.obj [])
        ((construct cfgW (.obj []) none).store.stored)).store.state =
      (construct cfgW (.obj []) none).store.state :=
  hydration_idempotence_amended cfgW (.obj []) none (.bool true) rfl
    (by decide) rfl rfl rfl rfl

/-! ## Default initial state (claim C8) -/

/-- A configuration that omits the `init` option: the default `() => {}`
(which returns `undefined`) is used, with storage present but empty. -/
def cfgOmittedInit : Config where
  init := defaultInit
  hasStorage := true
  storageKey := "repersist-store"
  serialize := serializeW
  deserialize := deserializeW
  integrity := defaultIntegrity
  load := defaultLoad

/-- C8 (failing input). With the `init` option omitted and empty storage,
hydration falls back to `init(props)` where `init` defaulted to `() => {}`
— an arrow function with an empty *block* body, returning `undefined` —
so the initial state is `undefined`, not the documented empty object. -/
theorem default_init_not_empty_object :
    (construct cfgOmittedInit (.obj []) none).store.state = JSVal.undef ∧
    JSVal.undef ≠ JSVal.obj [] :=
  ⟨rfl, fun hc => JSVal.noConfusion hc⟩

/-! ## Non-reactive direct reader (claim C9) -/

/-- C9 (failing input). The factory's return statement exposes exactly the
seven React-context adapters; no `readStore` non-reactive direct reader is
among them, though the repository's README documents one. -/
theorem no_nonreactive_reader :
    "readStore" ∉ exposedSurface ∧
    exposedSurface = ["Provider", "Consumer", "ActionsConsumer", "withStore",
      "withActions", "useStore", "useActions"] := by
  exact ⟨by decide, rfl⟩
